import Mathlib

/-!
# Verification of the Anganwadi attendance bot core

Shallow embedding of `src/anganwadi_v2_bot.py`. Python dictionaries are
modelled as insertion-ordered association lists (`Dict`); Python dict
assignment `d[k] = v` replaces in place when the key is present and appends
otherwise, which `Dict.set` mirrors. `defaultdict` reads are modelled with
`Dict.getD`: materialising an empty inner dict on read is observationally
equivalent to leaving the key absent, since every read of a missing key
yields the default.

Calendar dates (Python `"YYYY-MM-DD"` strings produced by `today_str`)
are modelled as integer day numbers: the string encoding is injective and
the string for "yesterday" of day `d` is the string of day `d - 1`, so
string equality of dates corresponds to integer equality of day numbers.
Clock-of-day values (`"HH:MM"`) stay opaque strings.

The Telegram transport is external: a photo update is modelled by the
`PhotoEvent` record carrying exactly the fields `handle_photo` reads, and
a sent message is recorded in the `sent` list of the handler result.
-/

namespace Anganwadi

/-- Insertion-ordered association list standing for a Python `dict`. -/
abbrev Dict (K V : Type) : Type := List (K × V)

namespace Dict

variable {K V : Type} [DecidableEq K]

/-- `d.get k` as `Option`, first (and in well-formed dicts only) binding wins. -/
def get? : Dict K V → K → Option V
  | [], _ => none
  | (k', v) :: rest, k => if k' = k then some v else get? rest k

/-- Python `d.get(k, v0)`. -/
def getD (d : Dict K V) (k : K) (v0 : V) : V :=
  (d.get? k).getD v0

/-- Python `d[k] = v`: replace in place if present, append otherwise. -/
def set : Dict K V → K → V → Dict K V
  | [], k, v => [(k, v)]
  | (k', v') :: rest, k, v => if k' = k then (k, v) :: rest else (k', v') :: set rest k v

/-- Python `d.keys()`. -/
def keys (d : Dict K V) : List K :=
  d.map Prod.fst

theorem get?_set_self (d : Dict K V) (k : K) (v : V) : (d.set k v).get? k = some v := by
  induction d with
  | nil => simp [set, get?]
  | cons p rest ih =>
    obtain ⟨pk, pv⟩ := p
    by_cases h : pk = k
    · simp [set, h, get?]
    · simp [set, h, get?, ih]

theorem get?_set_ne (d : Dict K V) {k k' : K} (v : V) (h : k' ≠ k) :
    (d.set k v).get? k' = d.get? k' := by
  have hk : ¬ k = k' := fun hh => h hh.symm
  induction d with
  | nil => simp [set, get?, hk]
  | cons p rest ih =>
    obtain ⟨pk, pv⟩ := p
    by_cases hp : pk = k
    · simp [set, hp, get?, hk]
    · simp [set, hp, get?, ih]

theorem set_get?_eq (d : Dict K V) {k : K} {v : V} (h : d.get? k = some v) :
    d.set k v = d := by
  induction d with
  | nil => simp [get?] at h
  | cons p rest ih =>
    obtain ⟨pk, pv⟩ := p
    by_cases hp : pk = k
    · simp only [get?, if_pos hp] at h
      obtain rfl : pv = v := Option.some.inj h
      simp [set, hp]
    · simp only [get?, if_neg hp] at h
      simp [set, hp, ih h]

theorem getD_set_self (d : Dict K V) (k : K) (v v0 : V) : (d.set k v).getD k v0 = v := by
  simp [getD, get?_set_self]

theorem getD_set_ne (d : Dict K V) {k k' : K} (v v0 : V) (h : k' ≠ k) :
    (d.set k v).getD k' v0 = d.getD k' v0 := by
  simp [getD, get?_set_ne _ _ h]

theorem mem_keys_iff (d : Dict K V) (k : K) : k ∈ d.keys ↔ (d.get? k).isSome := by
  induction d with
  | nil => simp [keys, get?]
  | cons p rest ih =>
    obtain ⟨pk, pv⟩ := p
    simp only [keys, List.map_cons, List.mem_cons, get?] at *
    by_cases hp : pk = k
    · simp [hp]
    · have hk : ¬ k = pk := fun hh => hp hh.symm
      simp [hp, hk, ih]

theorem mem_keys_set (d : Dict K V) (k k' : K) (v : V) :
    k' ∈ (d.set k v).keys ↔ k' = k ∨ k' ∈ d.keys := by
  by_cases h : k' = k
  · simp [h, mem_keys_iff, get?_set_self]
  · simp [h, mem_keys_iff, get?_set_ne _ _ h]

end Dict

/-- Value stored by `submissions[chat_id][date][user_id]`:
`{"name": str, "time": "HH:MM"}`. -/
structure SubVal where
  name : String
  time : String
deriving DecidableEq, Repr

/-- The fields of `update.effective_user` that `handle_photo` reads:
`user.id` and `user.first_name` (which may be `None`). -/
structure UserInfo where
  id : Int
  firstName : Option String
deriving DecidableEq, Repr

/-- The fields of a Telegram photo update that `handle_photo` reads:
`update.effective_chat` (may be `None`), whether `msg.photo` is non-empty,
`msg.media_group_id` (may be `None`) and `update.effective_user`
(may be `None`). -/
structure PhotoEvent where
  chat : Option Int
  hasPhoto : Bool
  mediaGroupId : Option String
  user : Option UserInfo
deriving DecidableEq, Repr

/-- Which exit path `handle_photo` took. The Python function communicates
this only through its side effects (early `return` vs. sending the
confirmation); the spec names the paths `Recorded`, `AlreadySubmittedToday`
and `DuplicateAlbum`, and `ignored` covers the silent policy-rejection /
missing-actor / non-photo early returns. -/
inductive Outcome
  | ignored
  | duplicateAlbum
  | alreadySubmittedToday
  | recorded
deriving DecidableEq, Repr

/-- The module-level mutable state of `anganwadi_v2_bot.py`:
`submissions`, `streaks`, `last_submission_date`, `known_users` and
`media_group_seen`. Note that `media_group_seen` is a single module-level
set of media-group ids, shared across all chats and dates. -/
structure BotState where
  submissions : Dict Int (Dict Int (Dict Int SubVal))
  streaks : Dict Int (Dict Int Int)
  last_submission_date : Dict Int (Dict Int Int)
  known_users : Dict Int (Dict Int String)
  media_group_seen : List String
deriving DecidableEq, Repr

/-- State at process start: every map empty. -/
def initialState : BotState :=
  ⟨[], [], [], [], []⟩

/-- Lookup of `submissions[chat_id][date][user_id]` with `defaultdict`
semantics for the missing levels. -/
def getSubmission (s : BotState) (chat_id date user_id : Int) : Option SubVal :=
  ((s.submissions.getD chat_id []).getD date []).get? user_id

/-- `is_allowed_chat`: setup mode (empty allow-list) admits every chat,
otherwise membership in `ALLOWED_CHAT_IDS`. -/
def is_allowed_chat (allowed : List Int) (chat_id : Int) : Bool :=
  if allowed.isEmpty then true
  else decide (chat_id ∈ allowed)

/-- The confirmation text sent on a newly recorded submission. -/
def confirm_text (name : String) : String :=
  "✅ " ++ name ++ ", आपकी आज की फ़ोटो दर्ज कर ली गई है। बहुत अच्छे!"

/-- Result of one `handle_photo` call: the state after the call, the exit
path taken, and the messages sent to the chat during the call. -/
structure HandleResult where
  state : BotState
  outcome : Outcome
  sent : List String
deriving DecidableEq, Repr

/-- The part of `handle_photo` from line 140 on, after the chat/photo/album
gates and the user check: roster upsert, `setdefault`, the
already-submitted-today test, and on the fresh path the submission record,
the streak rule and the confirmation message. -/
def record_photo (today : Int) (nowHM : String) (s : BotState) (chat_id : Int)
    (u : UserInfo) : HandleResult :=
  let user_id := u.id
  let name := u.firstName.getD "User"
  let s2 : BotState :=
    { s with known_users :=
        s.known_users.set chat_id ((s.known_users.getD chat_id []).set user_id name) }
  let subsChat := s2.submissions.getD chat_id []
  let subsChat1 := if (subsChat.get? today).isSome then subsChat else subsChat.set today []
  let s3 : BotState := { s2 with submissions := s2.submissions.set chat_id subsChat1 }
  if ((subsChat1.getD today []).get? user_id).isSome then
    ⟨s3, .alreadySubmittedToday, []⟩
  else
    let subsChat2 := subsChat1.set today ((subsChat1.getD today []).set user_id ⟨name, nowHM⟩)
    let s4 : BotState := { s3 with submissions := s3.submissions.set chat_id subsChat2 }
    let prev := (s4.last_submission_date.getD chat_id []).get? user_id
    let newStreak : Int :=
      if prev = some (today - 1) then (s4.streaks.getD chat_id []).getD user_id 0 + 1 else 1
    let newStreaksChat := (s4.streaks.getD chat_id []).set user_id newStreak
    let s5 : BotState := { s4 with streaks := s4.streaks.set chat_id newStreaksChat }
    let newLastChat := (s5.last_submission_date.getD chat_id []).set user_id today
    let s6 : BotState :=
      { s5 with last_submission_date := s5.last_submission_date.set chat_id newLastChat }
    ⟨s6, .recorded, [confirm_text name]⟩

/-- `handle_photo(update, context)`. `today` is the day number produced by
`today_str()` during the call and `nowHM` the `"%H:%M"` clock string; the
day of "yesterday" computed at line 156 is `today - 1`. -/
def handle_photo (allowed : List Int) (today : Int) (nowHM : String)
    (s : BotState) (e : PhotoEvent) : HandleResult :=
  match e.chat with
  | none => ⟨s, .ignored, []⟩
  | some chat_id =>
    if is_allowed_chat allowed chat_id then
      if e.hasPhoto then
        match e.mediaGroupId with
        | some mgid =>
          if mgid ∈ s.media_group_seen then ⟨s, .duplicateAlbum, []⟩
          else
            match e.user with
            | none => ⟨{ s with media_group_seen := mgid :: s.media_group_seen }, .ignored, []⟩
            | some u =>
              record_photo today nowHM
                { s with media_group_seen := mgid :: s.media_group_seen } chat_id u
        | none =>
          match e.user with
          | none => ⟨s, .ignored, []⟩
          | some u => record_photo today nowHM s chat_id u
      else ⟨s, .ignored, []⟩
    else ⟨s, .ignored, []⟩

/-- Folding a sequence of photo events through `handle_photo`; each event
comes with the `today` day number and clock string current when it is
handled. -/
def run_photos (allowed : List Int) (evs : List (Int × String × PhotoEvent))
    (s : BotState) : BotState :=
  evs.foldl (fun st ev => (handle_photo allowed ev.1 ev.2.1 st ev.2.2).state) s

/-- "Sorted before" relation of `sorted(..., key=lambda x: x[1], reverse=True)`:
`a` precedes `b` when `a`'s streak is at least `b`'s. -/
def streak_ge (a b : Int × Int) : Prop :=
  b.2 ≤ a.2

instance : DecidableRel streak_ge :=
  fun a b => inferInstanceAs (Decidable (b.2 ≤ a.2))

instance : IsTotal (Int × Int) streak_ge :=
  ⟨fun a b => le_total b.2 a.2⟩

instance : IsTrans (Int × Int) streak_ge :=
  ⟨fun _ _ _ hab hbc => le_trans hbc hab⟩

/-- Python's stable `sorted(pairs, key=lambda x: x[1], reverse=True)`. -/
def sort_by_streak_desc (l : List (Int × Int)) : List (Int × Int) :=
  l.insertionSort streak_ge

/-- `set(submissions[chat_id].get(date, {}).keys())`: the users with a
Submission for `(chat, date)`. -/
def today_ids (s : BotState) (chat_id date : Int) : List Int :=
  ((s.submissions.getD chat_id []).getD date []).keys

/-- `max(0, total_members - len(today_ids))` at line 179. -/
def pending_count (total_members : Int) (todayCount : Nat) : Int :=
  max 0 (total_members - (todayCount : Int))

/-- `tracked_ids = set(known_users[chat_id].keys()) | set(today_ids)` at
line 182; set union modelled as deduplicated concatenation (set iteration
order is unspecified in Python, and no claim depends on it). -/
def tracked_ids (s : BotState) (chat_id date : Int) : List Int :=
  ((s.known_users.getD chat_id []).keys ++ today_ids s chat_id date).dedup

/-- `top_streaks` of `_build_summary_text` (lines 183-187): streak pairs of
the tracked users, sorted by streak descending, first five kept. -/
def top_streaks (s : BotState) (chat_id date : Int) : List (Int × Int) :=
  (sort_by_streak_desc ((tracked_ids s chat_id date).map
    (fun uid => (uid, (s.streaks.getD chat_id []).getD uid 0)))).take 5

/-- The generator-with-filter of lines 189-192: enumerate `top_streaks`
and keep the entries with positive streak (indices keep their enumerated
positions). Each element is `(index, user id, streak)`. -/
def leaderboard_entries (s : BotState) (chat_id date : Int) : List (Nat × Int × Int) :=
  ((top_streaks s chat_id date).enum).filter (fun p => 0 < p.2.2)

/-- One rendered leaderboard line: `f"{i+1}. {name} – {count} दिन"`. -/
def leaderboard_line (s : BotState) (chat_id : Int) (i : Nat) (uid : Int)
    (count : Int) : String :=
  toString (i + 1) ++ ". " ++ ((s.known_users.getD chat_id []).get? uid).getD "User"
    ++ " – " ++ toString count ++ " दिन"

/-- The `"\n".join(...)` of the rendered leaderboard lines. -/
def leaderboard_text (s : BotState) (chat_id date : Int) : String :=
  String.intercalate "\n" ((leaderboard_entries s chat_id date).map
    (fun p => leaderboard_line s chat_id p.1 p.2.1 p.2.2))

/-- The placeholder shown when the leaderboard string is empty. -/
def no_data_text : String :=
  "अभी कोई डेटा उपलब्ध नहीं है।"

/-- `leaderboard if leaderboard else '...'` of line 200 (Python treats the
empty string as falsy). -/
def leaderboard_or_placeholder (s : BotState) (chat_id date : Int) : String :=
  let lb := leaderboard_text s chat_id date
  if lb = "" then no_data_text else lb

/-- `_build_summary_text`: `total_members` is the live count returned by
`get_chat_member_count` (an external collaborator), `clock` the
`"%I:%M %p"` timestamp string. -/
def build_summary_text (s : BotState) (chat_id : Int) (total_members : Int)
    (date : Int) (clock : String) : String :=
  let tids := today_ids s chat_id date
  let pending := pending_count total_members tids.length
  "📊 " ++ clock ++ " समूह रिपोर्ट:\n\n"
    ++ "👥 कुल सदस्य: " ++ toString total_members ++ "\n"
    ++ "✅ आज रिपोर्ट भेजी: " ++ toString tids.length ++ "\n"
    ++ "⏳ रिपोर्ट नहीं भेजी: " ++ toString pending ++ "\n\n"
    ++ "🏆 लगातार रिपोर्टिंग करने वाले:\n"
    ++ leaderboard_or_placeholder s chat_id date

/-- The medal list of `post_awards_for_chat` (line 217). -/
def medals : List String :=
  ["🥇", "🥈", "🥉", "🎖️", "🏅"]

/-- `top_streaks` of `post_awards_for_chat` (lines 209-214): built from
`member_ids = set(known_users[chat_id].keys())` only (no union with
today's submitters, unlike the summary). -/
def awards_top_streaks (s : BotState) (chat_id : Int) : List (Int × Int) :=
  (sort_by_streak_desc (((s.known_users.getD chat_id []).keys.dedup).map
    (fun uid => (uid, (s.streaks.getD chat_id []).getD uid 0)))).take 5

/-- One award announcement (line 220). -/
def award_line (s : BotState) (chat_id : Int) (i : Nat) (uid : Int)
    (count : Int) : String :=
  medals.getD i "" ++ " *"
    ++ ((s.known_users.getD chat_id []).get? uid).getD ("User " ++ toString uid)
    ++ "*, आप आज #" ++ toString (i + 1) ++ " स्थान पर हैं — " ++ toString count
    ++ " दिनों की शानदार रिपोर्टिंग के साथ! 🎉👏"

/-- The ordered sequence of messages `post_awards_for_chat` sends: none
when there are no ranked users or the top streak is exactly `0`, otherwise
one per entry of the top-5 list (lines 215-222). -/
def awards_messages (s : BotState) (chat_id : Int) : List String :=
  match awards_top_streaks s chat_id with
  | [] => []
  | (u0, c0) :: rest =>
    if c0 = 0 then []
    else (((u0, c0) :: rest).enum).map (fun p => award_line s chat_id p.1 p.2.1 p.2.2)

/-- A scheduled job kind: `job_summary` or `job_awards`. -/
inductive JobKind
  | summary
  | awards
deriving DecidableEq, Repr

/-- One `jq.run_daily(...)` registration: callback kind, daily local time,
and the chat id passed as `data`. -/
structure Job where
  kind : JobKind
  hour : Nat
  minute : Nat
  chat_id : Int
deriving DecidableEq, Repr

/-- `times = [(10,0), (14,0), (18,0)]` of line 233. -/
def report_times : List (Nat × Nat) :=
  [(10, 0), (14, 0), (18, 0)]

/-- `schedule_reports`: in setup mode (empty allow-list) registers nothing;
otherwise, per allowed chat and per time slot, one summary job at `hh:00`
and one awards job at `hh:02`. -/
def schedule_reports (allowed : List Int) : List Job :=
  if allowed.isEmpty then []
  else allowed.flatMap (fun cid => report_times.flatMap
    (fun t => [Job.mk .summary t.1 0 cid, Job.mk .awards t.1 2 cid]))

/-! ## Helper lemmas about `record_photo` and `handle_photo` -/

/-- `record_photo` exits either through the fresh-submission path (outcome
`recorded`, one confirmation message) or through the already-submitted
path (outcome `alreadySubmittedToday`, nothing sent). -/
theorem record_photo_cases (today : Int) (nowHM : String) (s : BotState) (chat_id : Int)
    (u : UserInfo) :
    ((record_photo today nowHM s chat_id u).outcome = .recorded ∧
      (record_photo today nowHM s chat_id u).sent = [confirm_text (u.firstName.getD "User")]) ∨
    ((record_photo today nowHM s chat_id u).outcome = .alreadySubmittedToday ∧
      (record_photo today nowHM s chat_id u).sent = []) := by
  simp only [record_photo]
  split <;> split
  all_goals first
    | exact Or.inl ⟨rfl, rfl⟩
    | exact Or.inr ⟨rfl, rfl⟩

theorem record_photo_outcome_ne_duplicate (today : Int) (nowHM : String) (s : BotState)
    (chat_id : Int) (u : UserInfo) :
    (record_photo today nowHM s chat_id u).outcome ≠ .duplicateAlbum := by
  rcases record_photo_cases today nowHM s chat_id u with ⟨h, _⟩ | ⟨h, _⟩ <;>
    simp [h]

/-! ## C8: chat access policy -/

/-- C8: `is_allowed_chat` returns true for every chat id when the
allow-list is empty, and on a non-empty allow-list it returns true exactly
for the members of the list. (It is a plain function of its arguments in
this embedding, matching the "pure function, no side effects" part of the
claim.) -/
theorem c8_is_allowed_chat_policy :
    (∀ c : Int, is_allowed_chat [] c = true) ∧
    (∀ (allowed : List Int) (c : Int), allowed ≠ [] →
      (is_allowed_chat allowed c = true ↔ c ∈ allowed)) := by
  constructor
  · intro c
    simp [is_allowed_chat]
  · intro allowed c h
    simp [is_allowed_chat, h]

/-- Witness for C8 at the empty list and at the allow-list `[5]`. -/
theorem c8_witness :
    is_allowed_chat [] 7 = true ∧ (is_allowed_chat [5] 7 = true ↔ (7 : Int) ∈ [(5 : Int)]) :=
  ⟨c8_is_allowed_chat_policy.1 7, c8_is_allowed_chat_policy.2 [5] 7 (by decide)⟩

/-! ## C10: scheduling in setup mode -/

/-- C10: with an empty allow-list `schedule_reports` registers no jobs at
all (even though every chat passes the access policy), and every job it
does register targets a chat of the allow-list. -/
theorem c10_schedule_setup_mode :
    schedule_reports [] = [] ∧
    (∀ c : Int, is_allowed_chat [] c = true) ∧
    (∀ (allowed : List Int) (j : Job), j ∈ schedule_reports allowed → j.chat_id ∈ allowed) := by
  refine ⟨rfl, fun c => by simp [is_allowed_chat], ?_⟩
  intro allowed j hj
  unfold schedule_reports at hj
  by_cases h : allowed.isEmpty
  · simp [h] at hj
  · rw [if_neg h] at hj
    rcases List.mem_flatMap.mp hj with ⟨cid, hcid, hj2⟩
    rcases List.mem_flatMap.mp hj2 with ⟨t, _, hj3⟩
    simp only [List.mem_cons, List.not_mem_nil, or_false] at hj3
    rcases hj3 with h1 | h1 <;> (subst h1; exact hcid)

/-- Witness for C10: the 10:00 summary job registered for the allow-list
`[5]` targets chat `5`. -/
theorem c10_witness :
    (Job.mk .summary 10 0 5).chat_id ∈ ([5] : List Int) :=
  c10_schedule_setup_mode.2.2 [5] (Job.mk .summary 10 0 5) (by decide)

/-! ## C6: pending computation -/

/-- C6: the pending figure of the summary is `max 0 (total − |todayIds|)`,
hence never negative, where `todayIds` are exactly the users holding a
Submission for `(chat, date)`. -/
theorem c6_pending_invariant (s : BotState) (chat_id date total : Int) :
    0 ≤ pending_count total (today_ids s chat_id date).length ∧
    pending_count total (today_ids s chat_id date).length
      = max 0 (total - ((today_ids s chat_id date).length : Int)) ∧
    (∀ u : Int, u ∈ today_ids s chat_id date ↔ (getSubmission s chat_id date u).isSome) := by
  refine ⟨le_max_left 0 _, rfl, fun u => ?_⟩
  exact Dict.mem_keys_iff _ u

/-- Witness for C6: three submitters against a live total of `2` still
gives pending `0`, not `-1`. -/
theorem c6_witness :
    0 ≤ pending_count 2
      (today_ids
        ⟨[(1, [(0, [(10, ⟨"A", "09:00"⟩), (11, ⟨"B", "09:10"⟩), (12, ⟨"C", "09:20"⟩)])])],
          [], [], [], []⟩ 1 0).length :=
  (c6_pending_invariant
      ⟨[(1, [(0, [(10, ⟨"A", "09:00"⟩), (11, ⟨"B", "09:10"⟩), (12, ⟨"C", "09:20"⟩)])])],
        [], [], [], []⟩ 1 0 2).1

/-! ## C9: confirmation exactly on `Recorded` -/

/-- C9: a photo event leads to a message back to the chat precisely when
the outcome is `recorded`; on the duplicate outcomes and on policy
rejection nothing is sent, and on `recorded` exactly the confirmation
text for the user's display name is sent. -/
theorem c9_confirmation_iff_recorded (allowed : List Int) (today : Int) (nowHM : String)
    (s : BotState) (e : PhotoEvent) :
    ((handle_photo allowed today nowHM s e).sent ≠ [] ↔
      (handle_photo allowed today nowHM s e).outcome = .recorded) ∧
    (∀ u : UserInfo, e.user = some u →
      (handle_photo allowed today nowHM s e).outcome = .recorded →
      (handle_photo allowed today nowHM s e).sent = [confirm_text (u.firstName.getD "User")]) := by
  obtain ⟨chat?, photo?, mg?, user?⟩ := e
  cases chat? with
  | none => simp [handle_photo]
  | some chat_id =>
    by_cases hA : is_allowed_chat allowed chat_id
    · cases photo? with
      | false => simp [handle_photo, hA]
      | true =>
        cases mg? with
        | none =>
          cases user? with
          | none => simp [handle_photo, hA]
          | some u =>
            rcases record_photo_cases today nowHM s chat_id u with ⟨h1, h2⟩ | ⟨h1, h2⟩ <;>
              simp_all [handle_photo, hA]
        | some mgid =>
          by_cases hseen : mgid ∈ s.media_group_seen
          · simp [handle_photo, hA, hseen]
          · cases user? with
            | none => simp [handle_photo, hA, hseen]
            | some u =>
              rcases record_photo_cases today nowHM
                  { s with media_group_seen := mgid :: s.media_group_seen } chat_id u with
                ⟨h1, h2⟩ | ⟨h1, h2⟩ <;> simp_all [handle_photo, hA, hseen]
    · simp [handle_photo, hA]

/-- Witness for C9: the first photo of the day is recorded and confirmed
with the user's name. -/
theorem c9_witness :
    (handle_photo [] 0 "09:00" initialState ⟨some 1, true, none, some ⟨10, some "A"⟩⟩).sent
      = [confirm_text "A"] :=
  (c9_confirmation_iff_recorded [] 0 "09:00" initialState
      ⟨some 1, true, none, some ⟨10, some "A"⟩⟩).2 ⟨10, some "A"⟩ rfl (by decide)

/-! ## C2: the streak update rule -/

/-- On the fresh-submission path of `record_photo`, the new streak is the
old streak plus one when the last recorded submission date is `today - 1`
and `1` otherwise (including when there is no prior date), and the last
submission date becomes `today`. -/
theorem record_photo_streak (today : Int) (nowHM : String) (s : BotState) (chat_id : Int)
    (u : UserInfo) :
    (record_photo today nowHM s chat_id u).outcome = .recorded →
    (((record_photo today nowHM s chat_id u).state.streaks.getD chat_id []).getD u.id 0 =
        if (s.last_submission_date.getD chat_id []).get? u.id = some (today - 1)
          then (s.streaks.getD chat_id []).getD u.id 0 + 1 else 1) ∧
      ((record_photo today nowHM s chat_id u).state.last_submission_date.getD
          chat_id []).get? u.id = some today := by
  simp only [record_photo]
  split <;> split
  all_goals intro h
  any_goals cases h
  all_goals
    refine ⟨?_, ?_⟩
  all_goals
    first
      | rw [Dict.getD_set_self, Dict.getD_set_self]
      | rw [Dict.getD_set_self, Dict.get?_set_self]

/-- C2: when `handle_photo` records a submission for `(chat, user)` on day
`today`, the streak is incremented when the user's last recorded date is
`today - 1` and reset to `1` otherwise (in particular on a first-ever
submission), and the last-submission date is then set to `today`. -/
theorem c2_streak_update_rule (allowed : List Int) (today : Int) (nowHM : String)
    (s : BotState) (e : PhotoEvent) (chat_id : Int) (u : UserInfo)
    (hchat : e.chat = some chat_id) (huser : e.user = some u)
    (hrec : (handle_photo allowed today nowHM s e).outcome = .recorded) :
    (((handle_photo allowed today nowHM s e).state.streaks.getD chat_id []).getD u.id 0 =
        if (s.last_submission_date.getD chat_id []).get? u.id = some (today - 1)
          then (s.streaks.getD chat_id []).getD u.id 0 + 1 else 1) ∧
    ((handle_photo allowed today nowHM s e).state.last_submission_date.getD
        chat_id []).get? u.id = some today := by
  obtain ⟨chat?, photo?, mg?, user?⟩ := e
  dsimp only at hchat huser
  subst hchat
  subst huser
  by_cases hA : is_allowed_chat allowed chat_id
  · cases photo? with
    | false => simp [handle_photo, hA] at hrec
    | true =>
      cases mg? with
      | none =>
        simp only [handle_photo, hA, if_true] at hrec ⊢
        exact record_photo_streak today nowHM s chat_id u hrec
      | some mgid =>
        by_cases hseen : mgid ∈ s.media_group_seen
        · simp [handle_photo, hA, hseen] at hrec
        · simp only [handle_photo, hA, hseen, if_true, if_neg] at hrec ⊢
          exact record_photo_streak today nowHM
            { s with media_group_seen := mgid :: s.media_group_seen } chat_id u hrec
  · simp [handle_photo, hA] at hrec

/-- Day-0 photo of user `10` (display name "A") in chat `1`; used by the
concrete witnesses below. -/
def exEventA : PhotoEvent :=
  ⟨some 1, true, none, some ⟨10, some "A"⟩⟩

/-- The state after handling `exEventA` on day `0` from the initial state:
user `10` has a day-0 submission, streak `1`, last date `0`. -/
def exState1 : BotState :=
  (handle_photo [] 0 "09:00" initialState exEventA).state

/-- Witness for C2: user `10` submits again on day `1`; the streak rule
fires with `prev = some 0 = today - 1`, and the last date becomes `1`. -/
theorem c2_witness :
    (((handle_photo [] 1 "08:00" exState1 exEventA).state.streaks.getD 1 []).getD 10 0 =
        if (exState1.last_submission_date.getD 1 []).get? 10 = some (1 - 1)
          then (exState1.streaks.getD 1 []).getD 10 0 + 1 else 1) ∧
    ((handle_photo [] 1 "08:00" exState1 exEventA).state.last_submission_date.getD
        1 []).get? 10 = some 1 :=
  c2_streak_update_rule [] 1 "08:00" exState1 exEventA 1 ⟨10, some "A"⟩ rfl rfl (by decide)

/-! ## C7: album deduplication -/

/-- Counterexample to C7 as stated. `media_group_seen` is one module-level
set of media-group ids, not a set of `(chat, date, id)` tuples: after a
photo with media-group id `"g7"` is recorded in chat `1` on day `0`, a
photo with the same id arriving in a *different chat* (`2`) on a
*different day* (`1`) is still dropped as `duplicateAlbum` and produces no
Submission, although the claim says it should produce one. -/
theorem c7_counterexample :
    ((handle_photo [] 1 "09:05"
        (handle_photo [] 0 "09:00" initialState
          ⟨some 1, true, some "g7", some ⟨10, some "A"⟩⟩).state
        ⟨some 2, true, some "g7", some ⟨11, some "B"⟩⟩).outcome = .duplicateAlbum) ∧
    getSubmission
      (handle_photo [] 1 "09:05"
        (handle_photo [] 0 "09:00" initialState
          ⟨some 1, true, some "g7", some ⟨10, some "A"⟩⟩).state
        ⟨some 2, true, some "g7", some ⟨11, some "B"⟩⟩).state 2 1 11 = none := by
  constructor <;> rfl

/-- C7 amended: album deduplication is global, scoped only by the
media-group id. A photo carrying a media-group id is dropped as
`duplicateAlbum` exactly when that id was seen before — in any chat, on
any day — and a `duplicateAlbum` outcome causes no state change and sends
nothing. -/
theorem c7_amended_album_dedup_global (allowed : List Int) (today : Int) (nowHM : String)
    (s : BotState) (e : PhotoEvent) (chat_id : Int) (mgid : String)
    (hchat : e.chat = some chat_id) (hallow : is_allowed_chat allowed chat_id = true)
    (hphoto : e.hasPhoto = true) (hmg : e.mediaGroupId = some mgid) :
    ((handle_photo allowed today nowHM s e).outcome = .duplicateAlbum ↔
      mgid ∈ s.media_group_seen) ∧
    (mgid ∈ s.media_group_seen →
      (handle_photo allowed today nowHM s e).state = s ∧
      (handle_photo allowed today nowHM s e).sent = []) := by
  obtain ⟨chat?, photo?, mg?, user?⟩ := e
  dsimp only at hchat hphoto hmg
  subst hchat
  subst hphoto
  subst hmg
  by_cases hseen : mgid ∈ s.media_group_seen
  · simp [handle_photo, hallow, hseen]
  · cases user? with
    | none => simp [handle_photo, hallow, hseen]
    | some u =>
      have hne := record_photo_outcome_ne_duplicate today nowHM
        { s with media_group_seen := mgid :: s.media_group_seen } chat_id u
      simp [handle_photo, hallow, hseen, hne]

/-- Witness for C7 (amended) in both directions: a fresh id is not
dropped, a previously seen id is dropped with the state untouched. -/
theorem c7_witness :
    (¬ ((handle_photo [] 0 "09:00" initialState
          ⟨some 1, true, some "g7", some ⟨10, some "A"⟩⟩).outcome = .duplicateAlbum)) ∧
    ((handle_photo [] 0 "09:10"
        ⟨[], [], [], [], ["g7"]⟩
        ⟨some 1, true, some "g7", some ⟨10, some "A"⟩⟩).state = ⟨[], [], [], [], ["g7"]⟩) := by
  constructor
  · intro h
    exact absurd ((c7_amended_album_dedup_global [] 0 "09:00" initialState
        ⟨some 1, true, some "g7", some ⟨10, some "A"⟩⟩ 1 "g7" rfl rfl rfl rfl).1.mp h)
      (by decide)
  · exact ((c7_amended_album_dedup_global [] 0 "09:10" ⟨[], [], [], [], ["g7"]⟩
        ⟨some 1, true, some "g7", some ⟨10, some "A"⟩⟩ 1 "g7" rfl rfl rfl rfl).2
      (by decide)).1

/-! ## C3: second same-day photo -/

theorem Dict.get?_eq_some_getD {K V : Type} [DecidableEq K] (d : Dict K V) (k : K) (v0 : V)
    (h : (d.get? k).isSome) : d.get? k = some (d.getD k v0) := by
  cases hk : d.get? k with
  | none => rw [hk] at h; cases h
  | some w => simp [Dict.getD, hk]

/-- A key yielding something through `getD k []` at the next level must
itself be present. -/
theorem Dict.get?_getD_isSome {K K2 V2 : Type} [DecidableEq K] [DecidableEq K2]
    (d : Dict K (Dict K2 V2)) (k : K) (k2 : K2)
    (h : ((d.getD k []).get? k2).isSome = true) : (d.get? k).isSome = true := by
  cases hk : d.get? k with
  | some w => rfl
  | none =>
    exfalso
    simp only [Dict.getD, hk, Option.getD_none] at h
    simp [Dict.get?] at h

/-- An existing submission forces the chat and date levels of the nested
`submissions` dict to be present. -/
theorem getSubmission_chain (s : BotState) (c d u : Int) (v : SubVal)
    (h : getSubmission s c d u = some v) :
    s.submissions.get? c = some (s.submissions.getD c []) ∧
    (s.submissions.getD c []).get? d = some ((s.submissions.getD c []).getD d []) := by
  have hu : (((s.submissions.getD c []).getD d []).get? u).isSome = true := by
    unfold getSubmission at h; rw [h]; rfl
  have hd : ((s.submissions.getD c []).get? d).isSome = true :=
    Dict.get?_getD_isSome _ d u hu
  have hc : (s.submissions.get? c).isSome = true :=
    Dict.get?_getD_isSome _ c d hd
  exact ⟨Dict.get?_eq_some_getD _ c [] hc, Dict.get?_eq_some_getD _ d [] hd⟩

/-- The roster state after the line-143 upsert
`known_users[chat_id][user_id] = name`. -/
def roster_upsert (s : BotState) (chat_id : Int) (u : UserInfo) : Dict Int (Dict Int String) :=
  s.known_users.set chat_id ((s.known_users.getD chat_id []).set u.id (u.firstName.getD "User"))

/-- When a submission for `(chat, today, user)` already exists,
`record_photo` takes the already-submitted exit: it sends nothing and its
only state change is the roster upsert with the event's display name,
which happens *before* the already-submitted test (line 143 vs 149). -/
theorem record_photo_already (today : Int) (nowHM : String) (s : BotState) (chat_id : Int)
    (u : UserInfo) (v : SubVal) (h : getSubmission s chat_id today u.id = some v) :
    record_photo today nowHM s chat_id u =
      ⟨{ s with known_users := roster_upsert s chat_id u }, .alreadySubmittedToday, []⟩ := by
  obtain ⟨hc, hd⟩ := getSubmission_chain s chat_id today u.id v h
  have hsome : ((s.submissions.getD chat_id []).get? today).isSome = true := by
    rw [hd]; rfl
  have hu : (((s.submissions.getD chat_id []).getD today []).get? u.id).isSome = true := by
    unfold getSubmission at h; rw [h]; rfl
  simp only [record_photo, roster_upsert, hsome, if_true, hu, Dict.set_get?_eq _ hc]

/-- Counterexample to C3 as stated. After user `10` has a day-0 submission
stored with display name "A", a second photo the same day carrying display
name "B" takes the `alreadySubmittedToday` exit, yet the roster entry is
overwritten from "A" to "B" — it is not "exactly as before the event" as
the claim requires. -/
theorem c3_counterexample :
    ((handle_photo [] 0 "09:10" exState1
        ⟨some 1, true, none, some ⟨10, some "B"⟩⟩).outcome = .alreadySubmittedToday) ∧
    (exState1.known_users.getD 1 []).get? 10 = some "A" ∧
    ((handle_photo [] 0 "09:10" exState1
        ⟨some 1, true, none, some ⟨10, some "B"⟩⟩).state.known_users.getD 1 []).get? 10
      = some "B" :=
  ⟨rfl, rfl, rfl⟩

/-- C3 amended: a second photo for the same `(chat, date, user)` returns
`AlreadySubmittedToday`, sends nothing, and leaves the Submission store,
the streaks and the last-submission dates unchanged; however the roster
entry for the user is overwritten with the event's display name, and a
fresh media-group id carried by the event is marked seen. -/
theorem c3_amended_same_day_frame (allowed : List Int) (today : Int) (nowHM : String)
    (s : BotState) (e : PhotoEvent) (chat_id : Int) (u : UserInfo) (v : SubVal)
    (hchat : e.chat = some chat_id) (hallow : is_allowed_chat allowed chat_id = true)
    (hphoto : e.hasPhoto = true) (huser : e.user = some u)
    (hmg : e.mediaGroupId = none ∨ ∃ m, e.mediaGroupId = some m ∧ m ∉ s.media_group_seen)
    (hsub : getSubmission s chat_id today u.id = some v) :
    (handle_photo allowed today nowHM s e).outcome = .alreadySubmittedToday ∧
    (handle_photo allowed today nowHM s e).sent = [] ∧
    (handle_photo allowed today nowHM s e).state.submissions = s.submissions ∧
    (handle_photo allowed today nowHM s e).state.streaks = s.streaks ∧
    (handle_photo allowed today nowHM s e).state.last_submission_date
      = s.last_submission_date ∧
    (handle_photo allowed today nowHM s e).state.known_users
      = s.known_users.set chat_id
          ((s.known_users.getD chat_id []).set u.id (u.firstName.getD "User")) ∧
    (e.mediaGroupId = none →
      (handle_photo allowed today nowHM s e).state.media_group_seen = s.media_group_seen) ∧
    (∀ m, e.mediaGroupId = some m →
      (handle_photo allowed today nowHM s e).state.media_group_seen
        = m :: s.media_group_seen) := by
  obtain ⟨chat?, photo?, mg?, user?⟩ := e
  dsimp only at hchat hphoto huser hmg ⊢
  subst hchat
  subst hphoto
  subst huser
  cases mg? with
  | none =>
    have hrp := record_photo_already today nowHM s chat_id u v hsub
    simp [handle_photo, hallow, hrp, roster_upsert]
  | some m =>
    rcases hmg with h | ⟨m', hm', hns⟩
    · cases h
    · injection hm' with hmm
      subst hmm
      have hrp := record_photo_already today nowHM
        { s with media_group_seen := m :: s.media_group_seen } chat_id u v hsub
      simp [handle_photo, hallow, hns, hrp, roster_upsert]

/-- Witness for C3 (amended): the concrete second-photo event of the
counterexample indeed takes the `alreadySubmittedToday` exit with streaks
untouched. -/
theorem c3_witness :
    (handle_photo [] 0 "09:10" exState1
        ⟨some 1, true, none, some ⟨10, some "B"⟩⟩).outcome = .alreadySubmittedToday ∧
    (handle_photo [] 0 "09:10" exState1
        ⟨some 1, true, none, some ⟨10, some "B"⟩⟩).state.streaks = exState1.streaks := by
  have h := c3_amended_same_day_frame [] 0 "09:10" exState1
    ⟨some 1, true, none, some ⟨10, some "B"⟩⟩ 1 ⟨10, some "B"⟩ ⟨"A", "09:00"⟩
    rfl rfl rfl rfl (Or.inl rfl) (by decide)
  exact ⟨h.1, h.2.2.2.1⟩

/-! ## C1: at most one Submission per (chat, date, user) -/

/-- Re-storing a key's current (defaulted) value changes no lookup. -/
theorem Dict.getD_set_self_getD {K V : Type} [DecidableEq K] (d : Dict K V) (k c : K)
    (v0 : V) : (d.set k (d.getD k v0)).getD c v0 = d.getD c v0 := by
  by_cases hc : c = k
  · subst hc
    rw [Dict.getD_set_self]
  · exact Dict.getD_set_ne _ _ _ hc

/-- Storing the default at an absent key changes no defaulted lookup. -/
theorem Dict.getD_set_of_get?_none {K V : Type} [DecidableEq K] (d : Dict K V) {k : K}
    (c : K) (v0 : V) (h : d.get? k = none) : (d.set k v0).getD c v0 = d.getD c v0 := by
  by_cases hc : c = k
  · subst hc
    rw [Dict.getD_set_self, Dict.getD, h]
    rfl
  · exact Dict.getD_set_ne _ _ _ hc

/-- `record_photo` never removes or overwrites an existing submission
record, for any key `(c, d, uid)` — in particular not for the event's own
`(chat, today, user)` key, thanks to the line-149 guard. -/
theorem record_photo_preserves_submission (today : Int) (nowHM : String) (s : BotState)
    (chat_id : Int) (u : UserInfo) (c d uid : Int) (v : SubVal)
    (h : getSubmission s c d uid = some v) :
    getSubmission (record_photo today nowHM s chat_id u).state c d uid = some v := by
  unfold getSubmission at h ⊢
  simp only [record_photo]
  by_cases hpres : ((s.submissions.getD chat_id []).get? today).isSome = true
  · simp only [hpres, if_true]
    by_cases hguard :
        (((s.submissions.getD chat_id []).getD today []).get? u.id).isSome = true
    · simp [hguard]
      rw [Dict.getD_set_self_getD]
      exact h
    · simp [hguard]
      by_cases hc : c = chat_id
      · subst hc
        rw [Dict.getD_set_self]
        by_cases hd : d = today
        · subst hd
          rw [Dict.getD_set_self]
          have hne : uid ≠ u.id := by
            intro hh
            rw [hh] at h
            rw [h] at hguard
            exact hguard rfl
          rw [Dict.get?_set_ne _ _ hne]
          exact h
        · rw [Dict.getD_set_ne _ _ _ hd]
          exact h
      · rw [Dict.getD_set_ne _ _ _ hc, Dict.getD_set_ne _ _ _ hc]
        exact h
  · have hnone : (s.submissions.getD chat_id []).get? today = none := by
      cases hx : (s.submissions.getD chat_id []).get? today with
      | none => rfl
      | some w => exact absurd (by rw [hx]; rfl) hpres
    simp only [hpres, if_false]
    by_cases hguard :
        ((((s.submissions.getD chat_id []).set today []).getD today []).get? u.id).isSome
          = true
    · simp [hguard]
      by_cases hc : c = chat_id
      · subst hc
        rw [Dict.getD_set_self]
        rw [Dict.getD_set_of_get?_none _ _ _ hnone]
        exact h
      · rw [Dict.getD_set_ne _ _ _ hc]
        exact h
    · simp [hguard]
      by_cases hc : c = chat_id
      · subst hc
        rw [Dict.getD_set_self]
        by_cases hd : d = today
        · subst hd
          exfalso
          have hempty : (s.submissions.getD c []).getD d [] = [] := by
            rw [Dict.getD, hnone]
            rfl
          rw [hempty] at h
          simp [Dict.get?] at h
        · rw [Dict.getD_set_ne _ _ _ hd]
          rw [Dict.getD_set_of_get?_none _ _ _ hnone]
          exact h
      · rw [Dict.getD_set_ne _ _ _ hc, Dict.getD_set_ne _ _ _ hc]
        exact h

/-- `handle_photo` never removes or overwrites an existing submission. -/
theorem handle_photo_preserves_submission (allowed : List Int) (today : Int) (nowHM : String)
    (s : BotState) (e : PhotoEvent) (c d uid : Int) (v : SubVal)
    (h : getSubmission s c d uid = some v) :
    getSubmission (handle_photo allowed today nowHM s e).state c d uid = some v := by
  obtain ⟨chat?, photo?, mg?, user?⟩ := e
  cases chat? with
  | none => exact h
  | some chat_id =>
    by_cases hA : is_allowed_chat allowed chat_id
    · cases photo? with
      | false => simpa [handle_photo, hA] using h
      | true =>
        cases mg? with
        | none =>
          cases user? with
          | none => simpa [handle_photo, hA] using h
          | some u =>
            simp only [handle_photo, hA, if_true]
            exact record_photo_preserves_submission today nowHM s chat_id u c d uid v h
        | some mgid =>
          by_cases hseen : mgid ∈ s.media_group_seen
          · simpa [handle_photo, hA, hseen] using h
          · cases user? with
            | none => simpa [handle_photo, hA, hseen] using h
            | some u =>
              simp only [handle_photo, hA, hseen, if_true, if_neg, not_false_iff]
              exact record_photo_preserves_submission today nowHM
                { s with media_group_seen := mgid :: s.media_group_seen } chat_id u c d uid v h
    · simpa [handle_photo, hA] using h

/-- C1: a Submission record, once present for `(chat, date, user)`, is
preserved unchanged by any further sequence of photo events — later
photos for the same triple (including photos of the same album) are
dropped without creating or overwriting a Submission; since the store maps
each `(chat, date, user)` key to at most one record, at most one
Submission ever exists per triple. -/
theorem c1_at_most_one_submission (allowed : List Int)
    (evs : List (Int × String × PhotoEvent)) (s : BotState)
    (c d uid : Int) (v : SubVal)
    (h : getSubmission s c d uid = some v) :
    getSubmission (run_photos allowed evs s) c d uid = some v := by
  induction evs generalizing s with
  | nil => exact h
  | cons ev rest ih =>
    exact ih _ (handle_photo_preserves_submission allowed ev.1 ev.2.1 s ev.2.2 c d uid v h)

/-- Witness for C1: after user `10`'s day-0 photo is stored with name "A",
handling a second day-0 photo (name "B") leaves the original record. -/
theorem c1_witness :
    getSubmission
      (run_photos [] [(0, "09:10", ⟨some 1, true, none, some ⟨10, some "B"⟩⟩)] exState1)
      1 0 10 = some ⟨"A", "09:00"⟩ :=
  c1_at_most_one_submission [] _ exState1 1 0 10 ⟨"A", "09:00"⟩ (by decide)

/-! ## C4: the summary leaderboard -/

/-- C4: every rendered leaderboard entry carries a positive streak equal to
the stored streak of its user, and (whenever today's submitters are all on
the roster, which every reachable state satisfies — see
`handle_photo_preserves_roster_closure`) its user is known to the chat;
there are at most five entries; the entries are ordered by streak
descending; and when no entries remain the placeholder string is rendered
instead. -/
theorem c4_summary_leaderboard (s : BotState) (chat_id date : Int)
    (hclosed : ∀ u : Int, u ∈ today_ids s chat_id date →
      u ∈ (s.known_users.getD chat_id []).keys) :
    (∀ p ∈ leaderboard_entries s chat_id date,
        0 < p.2.2 ∧ p.2.2 = (s.streaks.getD chat_id []).getD p.2.1 0 ∧
        p.2.1 ∈ (s.known_users.getD chat_id []).keys) ∧
    (leaderboard_entries s chat_id date).length ≤ 5 ∧
    (leaderboard_entries s chat_id date).Pairwise (fun a b => b.2.2 ≤ a.2.2) ∧
    (leaderboard_entries s chat_id date = [] →
      leaderboard_or_placeholder s chat_id date = no_data_text) := by
  refine ⟨?_, ?_, ?_, ?_⟩
  · intro p hp
    have hp' := List.mem_filter.mp hp
    have hpos : 0 < p.2.2 := by simpa using hp'.2
    have henum : p ∈ (top_streaks s chat_id date).enum := hp'.1
    have hmem : p.2 ∈ top_streaks s chat_id date :=
      List.snd_mem_of_mem_enumFrom henum
    have hmem2 : p.2 ∈ sort_by_streak_desc ((tracked_ids s chat_id date).map
        (fun uid => (uid, (s.streaks.getD chat_id []).getD uid 0))) :=
      (List.take_sublist 5 _).subset hmem
    have hmem3 : p.2 ∈ (tracked_ids s chat_id date).map
        (fun uid => (uid, (s.streaks.getD chat_id []).getD uid 0)) :=
      (List.perm_insertionSort streak_ge _).subset hmem2
    rcases List.mem_map.mp hmem3 with ⟨uid, huid, hequ⟩
    have h1 : p.2.1 = uid := by rw [← hequ]
    have h2 : p.2.2 = (s.streaks.getD chat_id []).getD uid 0 := by rw [← hequ]
    have huid' : uid ∈ (s.known_users.getD chat_id []).keys := by
      simp only [tracked_ids] at huid
      rcases List.mem_append.mp (List.mem_dedup.mp huid) with h | h
      · exact h
      · exact hclosed uid h
    refine ⟨hpos, ?_, ?_⟩
    · rw [h1]
      exact h2
    · rw [h1]
      exact huid'
  · calc (leaderboard_entries s chat_id date).length
        ≤ (top_streaks s chat_id date).enum.length := List.length_filter_le _ _
      _ = (top_streaks s chat_id date).length := List.enum_length
      _ ≤ 5 := by
          simp only [top_streaks, List.length_take]
          exact Nat.min_le_left _ _
  · have hsorted : (top_streaks s chat_id date).Pairwise streak_ge := by
      simp only [top_streaks, sort_by_streak_desc]
      exact List.Pairwise.sublist (List.take_sublist 5 _)
        (List.sorted_insertionSort streak_ge _)
    have henum : (top_streaks s chat_id date).enum.Pairwise
        (fun a b => streak_ge a.2 b.2) := by
      rw [← List.enum_map_snd (top_streaks s chat_id date)] at hsorted
      exact List.pairwise_map.mp hsorted
    exact List.Pairwise.filter _ henum
  · intro h
    have hempty : "\n".intercalate ([] : List String) = "" := rfl
    simp [leaderboard_or_placeholder, leaderboard_text, h, hempty]

/-- The roster after `record_photo` is always the line-143 upsert,
whichever exit is taken. -/
theorem record_photo_known_users (today : Int) (nowHM : String) (s : BotState)
    (chat_id : Int) (u : UserInfo) :
    (record_photo today nowHM s chat_id u).state.known_users = roster_upsert s chat_id u := by
  simp only [record_photo, roster_upsert]
  split <;> first
    | rfl
    | (split <;> rfl)

/-- A submission present after `record_photo` was either present before or
is the event's own `(chat, today, user)` record. -/
theorem record_photo_getSubmission_isSome (today : Int) (nowHM : String) (s : BotState)
    (chat_id : Int) (u' : UserInfo) (c d u : Int)
    (h : (getSubmission (record_photo today nowHM s chat_id u').state c d u).isSome = true) :
    (getSubmission s c d u).isSome = true ∨ (c = chat_id ∧ d = today ∧ u = u'.id) := by
  unfold getSubmission at h ⊢
  simp only [record_photo] at h
  by_cases hpres : ((s.submissions.getD chat_id []).get? today).isSome = true
  · simp only [hpres, if_true] at h
    by_cases hguard :
        (((s.submissions.getD chat_id []).getD today []).get? u'.id).isSome = true
    · simp [hguard] at h
      rw [Dict.getD_set_self_getD] at h
      exact Or.inl h
    · simp [hguard] at h
      by_cases hc : c = chat_id
      · subst hc
        rw [Dict.getD_set_self] at h
        by_cases hd : d = today
        · subst hd
          rw [Dict.getD_set_self] at h
          by_cases hu : u = u'.id
          · exact Or.inr ⟨rfl, rfl, hu⟩
          · rw [Dict.get?_set_ne _ _ hu] at h
            exact Or.inl h
        · rw [Dict.getD_set_ne _ _ _ hd] at h
          exact Or.inl h
      · rw [Dict.getD_set_ne _ _ _ hc, Dict.getD_set_ne _ _ _ hc] at h
        exact Or.inl h
  · have hnone : (s.submissions.getD chat_id []).get? today = none := by
      cases hx : (s.submissions.getD chat_id []).get? today with
      | none => rfl
      | some w => exact absurd (by rw [hx]; rfl) hpres
    simp only [hpres, if_false] at h
    by_cases hguard :
        ((((s.submissions.getD chat_id []).set today []).getD today []).get? u'.id).isSome
          = true
    · simp [hguard] at h
      by_cases hc : c = chat_id
      · subst hc
        rw [Dict.getD_set_self, Dict.getD_set_of_get?_none _ _ _ hnone] at h
        exact Or.inl h
      · rw [Dict.getD_set_ne _ _ _ hc] at h
        exact Or.inl h
    · simp [hguard] at h
      by_cases hc : c = chat_id
      · subst hc
        rw [Dict.getD_set_self] at h
        by_cases hd : d = today
        · subst hd
          rw [Dict.getD_set_self] at h
          by_cases hu : u = u'.id
          · exact Or.inr ⟨rfl, rfl, hu⟩
          · rw [Dict.get?_set_ne _ _ hu, Dict.getD_set_self] at h
            cases h
        · rw [Dict.getD_set_ne _ _ _ hd,
            Dict.getD_set_of_get?_none _ _ _ hnone] at h
          exact Or.inl h
      · rw [Dict.getD_set_ne _ _ _ hc, Dict.getD_set_ne _ _ _ hc] at h
        exact Or.inl h

/-- Roster closure is preserved by `record_photo`: old submissions stay
covered because the roster only grows, and the freshly stored submission
is covered by the line-143 upsert that precedes it. -/
theorem record_photo_preserves_closure (today : Int) (nowHM : String) (s : BotState)
    (chat_id : Int) (u' : UserInfo)
    (hinv : ∀ c d u : Int, (getSubmission s c d u).isSome = true →
      u ∈ (s.known_users.getD c []).keys) :
    ∀ c d u : Int,
      (getSubmission (record_photo today nowHM s chat_id u').state c d u).isSome = true →
      u ∈ ((record_photo today nowHM s chat_id u').state.known_users.getD c []).keys := by
  intro c d u hsome
  rw [record_photo_known_users]
  rcases record_photo_getSubmission_isSome today nowHM s chat_id u' c d u hsome with
    h | ⟨rfl, rfl, rfl⟩
  · have h₀ := hinv c d u h
    unfold roster_upsert
    by_cases hc : c = chat_id
    · subst hc
      rw [Dict.getD_set_self, Dict.mem_keys_set]
      right
      exact h₀
    · rw [Dict.getD_set_ne _ _ _ hc]
      exact h₀
  · unfold roster_upsert
    rw [Dict.getD_set_self, Dict.mem_keys_set]
    left
    rfl

/-- Roster closure is an invariant of photo handling: if every user with a
stored submission (for any chat and date) is on that chat's roster, this
still holds after `handle_photo`. Together with the empty initial state it
discharges C4's hypothesis on every reachable state. -/
theorem handle_photo_preserves_roster_closure (allowed : List Int) (today : Int)
    (nowHM : String) (s : BotState) (e : PhotoEvent)
    (hinv : ∀ c d u : Int, (getSubmission s c d u).isSome = true →
      u ∈ (s.known_users.getD c []).keys) :
    ∀ c d u : Int,
      (getSubmission (handle_photo allowed today nowHM s e).state c d u).isSome = true →
      u ∈ ((handle_photo allowed today nowHM s e).state.known_users.getD c []).keys := by
  obtain ⟨chat?, photo?, mg?, user?⟩ := e
  cases chat? with
  | none => exact hinv
  | some chat_id =>
    by_cases hA : is_allowed_chat allowed chat_id
    · cases photo? with
      | false => simpa [handle_photo, hA] using hinv
      | true =>
        cases mg? with
        | none =>
          cases user? with
          | none => simpa [handle_photo, hA] using hinv
          | some u' =>
            intro c d u
            simp only [handle_photo, hA, if_true]
            exact record_photo_preserves_closure today nowHM s chat_id u' hinv c d u
        | some mgid =>
          by_cases hseen : mgid ∈ s.media_group_seen
          · simpa [handle_photo, hA, hseen] using hinv
          · cases user? with
            | none => simpa [handle_photo, hA, hseen] using hinv
            | some u' =>
              intro c d u
              simp only [handle_photo, hA, hseen, if_true, if_neg, not_false_iff]
              exact record_photo_preserves_closure today nowHM
                { s with media_group_seen := mgid :: s.media_group_seen } chat_id u' hinv c d u
    · simpa [handle_photo, hA] using hinv

/-- State realising the §8 scenario: three roster users, streaks `2`, `1`
and `0` (absent), all three submitted on day `0`. -/
def exSummaryState : BotState :=
  ⟨[(1, [(0, [(10, ⟨"A", "09:00"⟩), (11, ⟨"B", "09:10"⟩), (12, ⟨"C", "09:20"⟩)])])],
    [(1, [(10, 2), (11, 1)])], [], [(1, [(10, "A"), (11, "B"), (12, "C")])], []⟩

/-- Witness for C4 at the §8 scenario state: the rendered leaderboard has
at most five entries and every entry has a positive streak. -/
theorem c4_witness :
    (leaderboard_entries exSummaryState 1 0).length ≤ 5 ∧
    ∀ p ∈ leaderboard_entries exSummaryState 1 0, 0 < p.2.2 :=
  ⟨(c4_summary_leaderboard exSummaryState 1 0 (by decide)).2.1,
    fun p hp => ((c4_summary_leaderboard exSummaryState 1 0 (by decide)).1 p hp).1⟩

/-! ## C5: awards generation -/

/-- State refuting C5 as stated: roster users `10` ("A", streak `2`) and
`11` ("B", streak `0`). -/
def exAwardState : BotState :=
  ⟨[], [(1, [(10, 2)])], [], [(1, [(10, "A"), (11, "B")])], []⟩

/-- Counterexample to C5 as stated. With highest streak `2 > 0`, the code
announces *every* top-5 entry, including user `11` whose streak is `0`:
two announcements are produced, the second being the rank-2 award for the
zero-streak user — the claim's "entries of streak ≤ 0 always excluded"
fails. -/
theorem c5_counterexample :
    ((exAwardState.streaks.getD 1 []).getD 11 0 = 0) ∧
    awards_messages exAwardState 1 =
      [award_line exAwardState 1 0 10 2, award_line exAwardState 1 1 11 0] :=
  ⟨rfl, rfl⟩

/-- C5 amended: `post_awards_for_chat` ranks the chat's known users by
streak descending and keeps the first five; it produces zero announcements
when there are no known users or when the highest streak is exactly `0`;
otherwise it produces one announcement per ranked entry — zero-streak
entries included — numbered `1..5` in order, each with the distinct badge
of its rank. -/
theorem c5_amended_awards (s : BotState) (chat_id : Int) :
    (awards_top_streaks s chat_id).Pairwise (fun a b => b.2 ≤ a.2) ∧
    (awards_top_streaks s chat_id).length ≤ 5 ∧
    medals.Pairwise (fun a b => a ≠ b) ∧
    (awards_top_streaks s chat_id = [] → awards_messages s chat_id = []) ∧
    (∀ (u0 c0 : Int) (rest : List (Int × Int)),
      awards_top_streaks s chat_id = (u0, c0) :: rest →
      (c0 = 0 → awards_messages s chat_id = []) ∧
      (c0 ≠ 0 →
        awards_messages s chat_id =
          ((awards_top_streaks s chat_id).enum).map
            (fun p => award_line s chat_id p.1 p.2.1 p.2.2) ∧
        (awards_messages s chat_id).length = (awards_top_streaks s chat_id).length)) := by
  refine ⟨?_, ?_, ?_, ?_, ?_⟩
  · simp only [awards_top_streaks, sort_by_streak_desc]
    exact List.Pairwise.sublist (List.take_sublist 5 _)
      (List.sorted_insertionSort streak_ge _)
  · simp only [awards_top_streaks, List.length_take]
    exact Nat.min_le_left _ _
  · decide
  · intro h
    simp [awards_messages, h]
  · intro u0 c0 rest heq
    constructor
    · intro hc0
      simp [awards_messages, heq, hc0]
    · intro hc0
      constructor
      · simp [awards_messages, heq, hc0]
      · simp [awards_messages, heq, hc0]

/-- Witness for C5 (amended) at the counterexample state: the top streak
is `2 ≠ 0`, so one announcement per ranked entry is produced. -/
theorem c5_witness :
    awards_messages exAwardState 1 =
      ((awards_top_streaks exAwardState 1).enum).map
        (fun p => award_line exAwardState 1 p.1 p.2.1 p.2.2) :=
  (((c5_amended_awards exAwardState 1).2.2.2.2 10 2 [(11, 0)] (by decide)).2
    (by decide)).1

end Anganwadi
